import Mathlib

/-!
Verification development for the call-center audio-intelligence backend.

Python strings are modelled as `List Char` (`PyStr`); Python `float`
delay arithmetic is modelled exactly over `ℚ` (the delays the design talks
about are small integral values, so no rounding is involved); machine-level
exceptions become explicit `Except`/sum values; the external JSON decoder
`json.loads` is passed in as an explicit `loads` function, since it is a
Python standard-library collaborator and not part of this repository.
-/

/-- Python `str`, modelled as a list of characters. -/
abbrev PyStr := List Char

/-- Conversion from a Lean string literal to the `PyStr` model. -/
def pstr (s : String) : PyStr := s.toList

/-- The characters Python `str.strip` and `str.split` treat as whitespace. -/
def isPySpace (c : Char) : Bool :=
  c = ' ' || c = '\t' || c = '\n' || c = '\r' || c = '\x0b' || c = '\x0c'

/-- Python `s.strip()`: drop leading and trailing whitespace. -/
def pyStrip (s : PyStr) : PyStr :=
  ((s.dropWhile isPySpace).reverse.dropWhile isPySpace).reverse

/-- Python `sub in s`: substring containment. -/
def containsSub (s sub : PyStr) : Bool :=
  (List.range (s.length + 1)).any (fun i => sub.isPrefixOf (s.drop i))

/-- Python `s.find(sub, start)`: the least index `i ≥ start` at which `sub`
occurs in `s`, and `-1` when there is none. -/
def pyFind (s sub : PyStr) (start : ℤ) : ℤ :=
  match (List.range (s.length + 1)).find?
      (fun (i : ℕ) => decide (start ≤ (i : ℤ)) && sub.isPrefixOf (s.drop i)) with
  | some i => (i : ℤ)
  | none => -1

/-- Python `s.rfind(sub)`: the greatest index at which `sub` occurs in `s`,
and `-1` when there is none. -/
def pyRfind (s sub : PyStr) : ℤ :=
  match (List.range (s.length + 1)).reverse.find?
      (fun i => sub.isPrefixOf (s.drop i)) with
  | some i => (i : ℤ)
  | none => -1

/-- Python `s[a:b]` for the in-bounds, non-negative indices produced by the
guarded uses in this codebase. -/
def pySlice (s : PyStr) (a b : ℤ) : PyStr :=
  (s.take b.toNat).drop a.toNat

/-- Python `len(s.split())`: the number of maximal whitespace-free runs. -/
def wordCount (s : PyStr) : ℕ :=
  (s.foldl
    (fun (acc : ℕ × Bool) c =>
      if isPySpace c then (acc.1, false)
      else if acc.2 then acc else (acc.1 + 1, true))
    (0, false)).1

/-- Decimal digit character for `n % 10`. -/
def digitChar10 (n : ℕ) : Char :=
  match n % 10 with
  | 0 => '0' | 1 => '1' | 2 => '2' | 3 => '3' | 4 => '4'
  | 5 => '5' | 6 => '6' | 7 => '7' | 8 => '8' | _ => '9'

/-- Accumulator loop rendering a natural number in decimal. -/
def natToStrGo : ℕ → PyStr → PyStr
  | n, acc =>
    if h : n < 10 then digitChar10 n :: acc
    else natToStrGo (n / 10) (digitChar10 n :: acc)
  termination_by n _ => n
  decreasing_by
    exact Nat.div_lt_self (Nat.lt_of_lt_of_le (by norm_num) (Nat.le_of_not_lt h))
      (by norm_num)

/-- Decimal rendering of a natural number. -/
def natToStr (n : ℕ) : PyStr := natToStrGo n []

/-- Decimal rendering of an integer. -/
def intToStr (i : ℤ) : PyStr :=
  if i < 0 then '-' :: natToStr i.natAbs else natToStr i.natAbs

/-- Rendering of a rational (exact model of Python number formatting; only
the rendered digits matter to the theorems below, never the exact shape). -/
def ratToStr (q : ℚ) : PyStr :=
  intToStr q.num ++ (if q.den = 1 then [] else '/' :: natToStr q.den)

/-- Python `", ".join(xs)`. -/
def joinComma : List PyStr → PyStr
  | [] => []
  | [x] => x
  | x :: xs => x ++ pstr ", " ++ joinComma xs

/-! ## Exceptions and the backoff executor (src/backend/app/utils/error_handling.py) -/

/-- The exception values that can cross `retry_with_backoff`
(`error_handling.py` lines 16-45 plus the two `httpx` exception kinds named
in the default `retryable_exceptions` tuple).
`rateLimit` is `RateLimitError` with its optional `retry_after`;
`httpStatus` is `httpx.HTTPStatusError` carrying the response status code and
the optional integer value of its `retry-after` header;
`timeout` is `httpx.TimeoutException`;
`apiError` is any other `APIError` (for example `TranscriptionError` or
`AnalysisError`), carrying message, status code and `retryable` flag. -/
inductive PyErr where
  | rateLimit (retry_after : Option ℕ)
  | httpStatus (code : ℕ) (retryAfterHeader : Option ℕ)
  | timeout
  | apiError (message : PyStr) (status_code : ℕ) (retryable : Bool)
  deriving DecidableEq, Repr

/-- The `retryable` attribute of an `APIError`
(`RateLimitError.__init__` passes `retryable=True`). The two `httpx`
exception kinds carry no such attribute; they map to `false` here and the
theorems never consult them. -/
def apiRetryable : PyErr → Bool
  | .rateLimit _ => true
  | .apiError _ _ r => r
  | _ => false

/-- Membership in the default `retryable_exceptions` tuple
`(httpx.HTTPStatusError, httpx.TimeoutException, RateLimitError)`
(`error_handling.py` line 55): Python `isinstance` dispatch on the
exception value. -/
def defaultRetryable : PyErr → Bool
  | .rateLimit _ => true
  | .httpStatus _ _ => true
  | .timeout => true
  | .apiError _ _ _ => false

/-- One attempt of the wrapped operation: the returned value or the raised
exception. -/
inductive Outcome (α : Type) where
  | ok (v : α)
  | err (e : PyErr)
  deriving DecidableEq, Repr

/-- The keyword parameters of `retry_with_backoff`
(`error_handling.py` lines 48-57). -/
structure BackoffConfig where
  max_retries : ℕ
  base_delay : ℚ
  max_delay : ℚ
  exponential_base : ℚ
  deriving DecidableEq, Repr

/-- The server wait hint the executor actually uses for exception `e`
(`error_handling.py` lines 83-89): a `RateLimitError` with a truthy
(non-`None`, non-zero) `retry_after`, or a 429 `HTTPStatusError` whose
`retry-after` header is present (the header is a string, so even `"0"` is
truthy and is used). -/
def hintDelay : PyErr → Option ℕ
  | .rateLimit (some ra) => if ra = 0 then none else some ra
  | .httpStatus code hdr => if code = 429 then hdr else none
  | _ => none

/-- The `HTTPStatusError` codes re-raised without retry inside the handler
(`error_handling.py` lines 90-92): a status outside `(429, 500, 502, 503,
504)`. -/
def fatalHttp : PyErr → Bool
  | .httpStatus code _ =>
      !(code = 429 || code = 500 || code = 502 || code = 503 || code = 504)
  | _ => false

/-- The body of the `except` handler of `retry_with_backoff` after the
`attempt == max_retries` check (`error_handling.py` lines 82-94): `none`
when the exception is re-raised at once (non-retryable HTTP status), else
the delay slept before the next attempt, exactly as the code computes it:
start from `base_delay * exponential_base ** attempt`, replace it by a
rate-limit wait hint when one is present, then cap at `max_delay`. -/
def backoffStep (cfg : BackoffConfig) (attempt : ℕ) (e : PyErr) : Option ℚ :=
  let delay0 : ℚ := cfg.base_delay * cfg.exponential_base ^ attempt
  match e with
  | .rateLimit (some ra) =>
      if ra = 0 then some (min delay0 cfg.max_delay)
      else some (min (ra : ℚ) cfg.max_delay)
  | .rateLimit none => some (min delay0 cfg.max_delay)
  | .httpStatus code hdr =>
      if code = 429 then
        match hdr with
        | some h => some (min (h : ℚ) cfg.max_delay)
        | none => some (min delay0 cfg.max_delay)
      else if code = 500 || code = 502 || code = 503 || code = 504 then
        some (min delay0 cfg.max_delay)
      else none
  | _ => some (min delay0 cfg.max_delay)

/-- The delay formula of the claim: the wait hint when the failure carries
one, `base_delay * exponential_base ** attempt` otherwise, capped at
`max_delay`. -/
def stepDelay (cfg : BackoffConfig) (attempt : ℕ) (e : PyErr) : ℚ :=
  min (match hintDelay e with
    | some h => (h : ℚ)
    | none => cfg.base_delay * cfg.exponential_base ^ attempt) cfg.max_delay

/-- The loop of `retry_with_backoff` (`error_handling.py` lines 71-99),
from attempt number `attempt` with `remaining` further attempts allowed
(`remaining = max_retries - attempt` along every real execution, so
`remaining = 0` is exactly the `attempt == max_retries` re-raise).
Returns the final value or exception together with the list of delays
slept, in order. -/
def retryGo (cfg : BackoffConfig) (isRetryable : PyErr → Bool)
    (attempts : ℕ → Outcome α) : ℕ → ℕ → Except PyErr α × List ℚ
  | attempt, remaining =>
    match attempts attempt with
    | .ok v => (.ok v, [])
    | .err e =>
      if isRetryable e then
        match remaining with
        | 0 => (.error e, [])
        | r + 1 =>
          match backoffStep cfg attempt e with
          | none => (.error e, [])
          | some d =>
            let rest := retryGo cfg isRetryable attempts (attempt + 1) r
            (rest.1, d :: rest.2)
      else (.error e, [])

/-- `retry_with_backoff(func, ...)` (`error_handling.py` lines 48-101):
run `attempts 0, attempts 1, ...` for at most `max_retries + 1` attempts.
The final `raise last_exception` at line 101 is unreachable (the handler
re-raises on the last attempt), so the whole behaviour is the loop. -/
def retry_with_backoff (cfg : BackoffConfig) (isRetryable : PyErr → Bool)
    (attempts : ℕ → Outcome α) : Except PyErr α × List ℚ :=
  retryGo cfg isRetryable attempts 0 cfg.max_retries

/-! ## JSON values and Python dicts (for src/backend/app/services/analysis.py) -/

/-- A decoded JSON value as Python `json.loads` produces one: `None`, bools,
numbers, strings, lists and string-keyed dicts. -/
inductive JsonVal where
  | null
  | bool (b : Bool)
  | num (q : ℚ)
  | str (s : PyStr)
  | arr (xs : List JsonVal)
  | obj (fields : List (PyStr × JsonVal))

/-- A Python dict with string keys, in insertion order. -/
abbrev Dict := List (PyStr × JsonVal)

/-- Python `d.get(k)` / `d[k]`: the value at the first (unique) occurrence of
key `k`. -/
def dget : Dict → PyStr → Option JsonVal
  | [], _ => none
  | (k', v) :: rest, k => if k' = k then some v else dget rest k

/-- Python `d[k] = v`: overwrite in place when the key exists, else append. -/
def dset : Dict → PyStr → JsonVal → Dict
  | [], k, v => [(k, v)]
  | (k', v') :: rest, k, v =>
      if k' = k then (k', v) :: rest else (k', v') :: dset rest k v

/-- Python `{**d1, **d2}`: keys of `d2` written into `d1` one by one. -/
def dmerge (d1 d2 : Dict) : Dict :=
  d2.foldl (fun acc p => dset acc p.1 p.2) d1

/-- Whether a JSON value is a dict (`obj`): what a caller of the parser that
expects a structured object assumes about the returned value. -/
def JsonVal.isObj : JsonVal → Bool
  | .obj _ => true
  | _ => false

/-! ## The result parser `parse_json_response` (analysis.py lines 84-134) -/

/-- Strategy 1 of the spec: parse the entire text as JSON
(`analysis.py` lines 94-98). -/
def strategy1 (loads : PyStr → Option JsonVal) (response : PyStr) :
    Option JsonVal :=
  loads response

/-- Strategy 2 of the spec: locate the fenced block explicitly tagged
`json` and parse its interior (`analysis.py` lines 100-108). -/
def strategy2 (loads : PyStr → Option JsonVal) (response : PyStr) :
    Option JsonVal :=
  if containsSub response (pstr "```json") then
    let start := pyFind response (pstr "```json") 0 + 7
    let stop := pyFind response (pstr "```") start
    if start < stop then loads (pyStrip (pySlice response start stop))
    else none
  else none

/-- Strategy 3 of the spec: locate any fenced block, skip an optional
language identifier line, and parse the interior
(`analysis.py` lines 110-122). -/
def strategy3 (loads : PyStr → Option JsonVal) (response : PyStr) :
    Option JsonVal :=
  if containsSub response (pstr "```") then
    let start0 := pyFind response (pstr "```") 0 + 3
    let newline := pyFind response (pstr "\n") start0
    let start := if newline ≠ -1 then newline + 1 else start0
    let stop := pyFind response (pstr "```") start
    if start < stop then loads (pyStrip (pySlice response start stop))
    else none
  else none

/-- Strategy 4 of the spec: parse the substring between the first `{` and
the last `}` (`analysis.py` lines 124-131). -/
def strategy4 (loads : PyStr → Option JsonVal) (response : PyStr) :
    Option JsonVal :=
  let start := pyFind response (pstr "\x7b") 0
  let stop := pyRfind response (pstr "\x7d") + 1
  if start ≠ -1 && start < stop then loads (pySlice response start stop)
  else none

/-- `parse_json_response(response, default)` (`analysis.py` lines 84-134),
translated clause by clause; `loads` stands for Python `json.loads`
restricted to the successes it achieves (`none` is `json.JSONDecodeError`).
An empty response returns the default at once (line 89); each parse attempt
sits in a `try`/`except json.JSONDecodeError` whose failure falls through to
the next block; the ultimate fallback returns the default (line 134).
Totality of this definition is the no-raise behaviour of the original. -/
def parse_json_response (loads : PyStr → Option JsonVal) (response : PyStr)
    (default : JsonVal) : JsonVal :=
  if response = [] then default
  else
    match loads response with
    | some v => v
    | none =>
      match
        (if containsSub response (pstr "```json") then
          let start := pyFind response (pstr "```json") 0 + 7
          let stop := pyFind response (pstr "```") start
          if start < stop then loads (pyStrip (pySlice response start stop))
          else none
        else none) with
      | some v => v
      | none =>
        match
          (if containsSub response (pstr "```") then
            let start0 := pyFind response (pstr "```") 0 + 3
            let newline := pyFind response (pstr "\n") start0
            let start := if newline ≠ -1 then newline + 1 else start0
            let stop := pyFind response (pstr "```") start
            if start < stop then loads (pyStrip (pySlice response start stop))
            else none
          else none) with
        | some v => v
        | none =>
          match
            (let start := pyFind response (pstr "\x7b") 0
             let stop := pyRfind response (pstr "\x7d") + 1
             if start ≠ -1 && start < stop then loads (pySlice response start stop)
             else none) with
          | some v => v
          | none => default

/-! ## Transcript validation (error_handling.py lines 212-237) -/

/-- The metadata dict built by `TranscriptValidator.validate_transcript`. -/
structure TranscriptMeta where
  length : ℕ
  word_count : ℕ
  is_empty : Bool
  is_short : Bool
  deriving DecidableEq, Repr

/-- `TranscriptValidator.validate_transcript` (`error_handling.py` lines
217-237): `(is_valid, warning_message, metadata)`, with
`MIN_TRANSCRIPT_LENGTH = 10`. -/
def validate_transcript (transcript : PyStr) :
    Bool × PyStr × TranscriptMeta :=
  let len := transcript.length
  let wc := wordCount transcript
  if transcript = [] || pyStrip transcript = [] then
    (false, pstr "Transcript is empty. The audio may be silent or corrupted.",
      ⟨len, wc, true, false⟩)
  else if len < 10 then
    (true, pstr "Transcript is very short. Audio may have limited speech content.",
      ⟨len, wc, false, true⟩)
  else (true, pstr "", ⟨len, wc, false, false⟩)

/-! ## The transcription job poller (src/backend/app/services/transcription.py) -/

/-- A timed transcript segment of the Whisper output (opaque to the poller:
carried through unchanged). -/
structure Segment where
  start : ℚ
  stop : ℚ
  text : PyStr
  deriving DecidableEq, Repr

/-- The structured form of the Replicate `output` field. -/
structure ReplicateDict where
  transcription : Option PyStr
  text : Option PyStr
  segments : Option (List Segment)
  detected_language : Option PyStr
  deriving DecidableEq, Repr

/-- The Replicate `output` payload: a bare string or a structured object
(`transcription.py` lines 147-152 handle both shapes). -/
inductive ReplicateOutput where
  | asStr (s : PyStr)
  | asDict (d : ReplicateDict)
  deriving DecidableEq, Repr

/-- One poll response body, as `status_data` is consumed: its `status`,
`output` and `error` fields, each possibly absent. -/
structure StatusData where
  status : Option PyStr
  output : Option ReplicateOutput
  error_msg : Option PyStr
  deriving DecidableEq, Repr

/-- The result dict built in the `succeeded` branch
(`transcription.py` lines 143-179): text, segments, detected language and
the validation metadata. -/
structure TranscribeResult where
  text : PyStr
  segments : List Segment
  detected_language : Option PyStr
  validation : Bool × PyStr × TranscriptMeta
  deriving DecidableEq, Repr

/-- The `succeeded` branch (`transcription.py` lines 143-179):
`output = status_data.get("output", {})`; a bare string is the text with no
segments, a dict yields `output.get("transcription", output.get("text", ""))`
and `output.get("segments", [])`; then the transcript is validated. -/
def mkTranscribeResult (sd : StatusData) : TranscribeResult :=
  let out := sd.output.getD (.asDict ⟨none, none, none, none⟩)
  match out with
  | .asStr s => ⟨s, [], none, validate_transcript s⟩
  | .asDict d =>
      let text := d.transcription.getD (d.text.getD [])
      ⟨text, d.segments.getD [], d.detected_language, validate_transcript text⟩

/-- One iteration's visible poll outcome: either the poll attempt (itself a
`retry_with_backoff` run) raised — any exception is caught, logged and the
loop continues (`transcription.py` lines 137-139) — or it returned a
status body. -/
inductive PollResult where
  | pollError
  | statusData (sd : StatusData)
  deriving DecidableEq, Repr

/-- The poller constants (`transcription.py` lines 124-125). -/
def max_polls : ℕ := 120

/-- The fixed poll interval in seconds (`transcription.py` line 125). -/
def poll_interval : ℕ := 5

/-- The timeout failure raised at the poll ceiling
(`transcription.py` lines 192-195): a `TranscriptionError` with
`retryable=True` (status code defaulted to 500 by `APIError.__init__`). -/
def transcribeTimeoutError : PyErr :=
  .apiError (pstr "Transcription timed out after " ++ natToStr (max_polls * poll_interval)
    ++ pstr " seconds") 500 true

/-- The failure raised on upstream `failed` status
(`transcription.py` lines 181-183): the upstream error message surfaced in a
non-retryable `TranscriptionError`. -/
def transcribeFailedError (sd : StatusData) : PyErr :=
  .apiError (pstr "Transcription failed: " ++ (sd.error_msg.getD (pstr "Unknown error")))
    500 false

/-- The failure raised on upstream `canceled` status
(`transcription.py` lines 185-186). -/
def transcribeCanceledError : PyErr :=
  .apiError (pstr "Transcription was canceled") 500 false

/-- The polling loop of `transcribe_audio` (`transcription.py` lines
127-195), from poll number `poll_count` with `remaining` iterations left.
Every entered iteration sleeps `poll_interval` seconds first (line 128);
the second component counts those fixed-interval sleeps. A raised poll
attempt (`pollError`) is logged and skipped with `continue`; `succeeded`,
`failed` and `canceled` are terminal; any other status (or a missing one)
just continues; falling off the loop raises the retryable timeout. -/
def transcribePollGo (polls : ℕ → PollResult) :
    ℕ → ℕ → Except PyErr TranscribeResult × ℕ
  | _, 0 => (.error transcribeTimeoutError, 0)
  | poll_count, r + 1 =>
    match polls poll_count with
    | .pollError =>
        let rest := transcribePollGo polls (poll_count + 1) r
        (rest.1, rest.2 + 1)
    | .statusData sd =>
        if sd.status = some (pstr "succeeded") then
          (.ok (mkTranscribeResult sd), 1)
        else if sd.status = some (pstr "failed") then
          (.error (transcribeFailedError sd), 1)
        else if sd.status = some (pstr "canceled") then
          (.error transcribeCanceledError, 1)
        else
          let rest := transcribePollGo polls (poll_count + 1) r
          (rest.1, rest.2 + 1)

/-- The backoff configuration of each individual poll attempt
(`transcription.py` lines 131-136): a smaller retry budget than the
submission call (`max_retries=2, base_delay=1.0`, defaults elsewhere). -/
def pollBackoffConfig : BackoffConfig :=
  { max_retries := 2, base_delay := 1, max_delay := 60, exponential_base := 2 }

/-- One poll attempt as the loop sees it: `retry_with_backoff` over that
poll's request attempts; any exception — retries exhausted or not —
is caught by the bare `except` and becomes `pollError`. -/
def pollOnce (pollAttempts : ℕ → ℕ → Outcome StatusData) (poll_count : ℕ) :
    PollResult :=
  match (retry_with_backoff pollBackoffConfig defaultRetryable
      (pollAttempts poll_count)).1 with
  | .ok sd => .statusData sd
  | .error _ => .pollError

/-- The whole polling phase of `transcribe_audio`: the loop over
`pollOnce`, 120 polls at 5-second intervals. -/
def transcribe_audio_poll (pollAttempts : ℕ → ℕ → Outcome StatusData) :
    Except PyErr TranscribeResult × ℕ :=
  transcribePollGo (pollOnce pollAttempts) 0 max_polls

/-- A poll outcome that terminates the loop: a body whose status is
`succeeded`, `failed` or `canceled`. A raised poll attempt or any other
status lets the loop continue. -/
def isTerminalPoll : PollResult → Bool
  | .pollError => false
  | .statusData sd =>
      sd.status = some (pstr "succeeded") || sd.status = some (pstr "failed")
        || sd.status = some (pstr "canceled")

/-! ## Validation and confidence layer (error_handling.py lines 240-285) -/

/-- `AnalysisValidator.LOW_CONFIDENCE_THRESHOLD` (line 243). -/
def LOW_CONFIDENCE_THRESHOLD : ℚ := 50

/-- The required analysis fields (line 255). -/
def requiredFields : List PyStr :=
  [pstr "performance_score", pstr "call_reason", pstr "call_outcome"]

/-- The confidence-bearing field pairs (lines 261-264):
`(confidence field, related classification field)`. -/
def confidenceFields : List (PyStr × PyStr) :=
  [(pstr "call_reason_confidence", pstr "call_reason"),
   (pstr "call_outcome_confidence", pstr "call_outcome")]

/-- Python `field not in analysis or analysis[field] is None` (line 257). -/
def isMissingField (analysis : Dict) (field : PyStr) : Bool :=
  match dget analysis field with
  | none => true
  | some .null => true
  | some _ => false

/-- The missing-required-field warning text (line 258). -/
def missingMsg (field : PyStr) : PyStr :=
  pstr "Missing analysis field: " ++ field

/-- The low-confidence warning text (lines 269-272). -/
def lowConfMsg (conf : ℚ) (related_field : PyStr) : PyStr :=
  pstr "Low confidence (" ++ ratToStr conf ++ pstr "%) for " ++ related_field
    ++ pstr ". Result may be uncertain."

/-- `analysis.get(conf_field, 50)` as used for the overall-confidence mean
(lines 276-279): a missing confidence defaults to the neutral 50. A present
non-numeric value would make the original `sum` raise; the theorems only
ever apply this to absent-or-numeric fields. -/
def confOrDefault (analysis : Dict) (k : PyStr) : ℚ :=
  match dget analysis k with
  | some (.num q) => q
  | _ => 50

/-- Whether the low-confidence branch fires for a confidence field (line
267-268): `conf_value = analysis.get(conf_field, 0)` followed by the truthy
test `if conf_value and conf_value < LOW_CONFIDENCE_THRESHOLD`. A missing
field defaults to the falsy `0`; a present `None` is falsy; a present zero
is falsy too, so it never fires. A present non-numeric value would make
the original comparison raise; the theorems only ever apply this to
absent-or-numeric fields. -/
def lowConfFires (analysis : Dict) (conf_field : PyStr) : Option ℚ :=
  match dget analysis conf_field with
  | some (.num q) =>
      if q ≠ 0 ∧ q < LOW_CONFIDENCE_THRESHOLD then some q else none
  | _ => none

/-- `AnalysisValidator.validate_analysis` (`error_handling.py` lines
246-285): `(is_valid, warnings, enhanced)`. Warnings collect the
missing-required-field messages (in field order), then the low-confidence
messages (in pair order); each firing low-confidence pair also sets the
sibling `<field>_uncertain` flag in the enhanced copy; the enhanced copy
then receives `overall_confidence` (the mean of the two confidence fields,
each defaulting to 50) and `analysis_warnings`; validity is the absence of
any warning containing `"Missing"`. -/
def validate_analysis (analysis : Dict) : Bool × List PyStr × Dict :=
  let warnings0 := requiredFields.foldl
    (fun ws f => if isMissingField analysis f then ws ++ [missingMsg f] else ws) []
  let step := fun (acc : List PyStr × Dict) (p : PyStr × PyStr) =>
    match lowConfFires analysis p.1 with
    | some q =>
        (acc.1 ++ [lowConfMsg q p.2],
         dset acc.2 (p.2 ++ pstr "_uncertain") (.bool true))
    | none => acc
  let conf := confidenceFields.foldl step (warnings0, analysis)
  let avg := (confOrDefault analysis (pstr "call_reason_confidence")
    + confOrDefault analysis (pstr "call_outcome_confidence")) / 2
  let enhanced := dset (dset conf.2 (pstr "overall_confidence") (.num avg))
    (pstr "analysis_warnings") (.arr (conf.1.map JsonVal.str))
  let is_valid :=
    (conf.1.filter (fun w => containsSub w (pstr "Missing"))).length = 0
  (is_valid, conf.1, enhanced)

/-- The missing-required-field warnings of `validate_analysis`, as a
value: one warning per required field that is absent or `None`, in field
order. -/
def missingWarnings (analysis : Dict) : List PyStr :=
  (requiredFields.filter (fun f => isMissingField analysis f)).map missingMsg

/-- The low-confidence warnings of `validate_analysis`, as a value: one
warning per confidence pair whose check fires, in pair order. -/
def lowConfWarnings (analysis : Dict) : List PyStr :=
  confidenceFields.filterMap
    (fun p => (lowConfFires analysis p.1).map (fun q => lowConfMsg q p.2))

/-! ## The analysis stage `run_full_analysis` (analysis.py lines 288-405) -/

/-- The fixed minimal record returned for an empty or too-short transcript
(`analysis.py` lines 304-323). -/
def minimalAnalysisRecord : Dict :=
  [(pstr "performance_score", .num 0),
   (pstr "performance_explanation",
     .str (pstr "Unable to analyze: transcript is empty or too short")),
   (pstr "call_reason", .str (pstr "unknown")),
   (pstr "call_reason_confidence", .num 0),
   (pstr "call_outcome", .str (pstr "unknown")),
   (pstr "call_outcome_confidence", .num 0),
   (pstr "interest_level", .str (pstr "unknown")),
   (pstr "conversion_likelihood", .num 0),
   (pstr "buying_signals_detected", .arr []),
   (pstr "sentiment_progression", .arr []),
   (pstr "products_discussed", .arr []),
   (pstr "recommended_products", .arr []),
   (pstr "objections_detected", .arr []),
   (pstr "missed_opportunities", .arr []),
   (pstr "missed_opportunity_flag", .bool false),
   (pstr "action_items", .arr []),
   (pstr "analysis_warnings",
     .arr [.str (pstr "Transcript too short for meaningful analysis")]),
   (pstr "overall_confidence", .num 0)]

/-- One sub-analysis run: its parsed result dict, or the exception message
when it raised (each sub-call is `call_llm` + `parse_json_response`; the
network and model are external, so the outcome is a parameter). -/
inductive SubOutcome where
  | ok (d : Dict)
  | exn (message : PyStr)

/-- The six sub-analysis outcomes of one `run_full_analysis` run; the
action-item generator consumes the textual summary of the first five, which
is absorbed into its abstract outcome. -/
structure SubOutcomes where
  performance : SubOutcome
  buying : SubOutcome
  classification : SubOutcome
  products : SubOutcome
  salesIntel : SubOutcome
  actionItems : SubOutcome

/-- The per-sub-analysis fallback record and error name on failure
(`analysis.py` lines 328-361): the documented safe default for that
sub-analysis, or the successful dict. Returns the dict together with the
`analysis_errors` entries this step contributes. -/
def subResult (o : SubOutcome) (fallback : Dict) (errName : PyStr) :
    Dict × List PyStr :=
  match o with
  | .ok d => (d, [])
  | .exn _ => (fallback, [errName])

/-- The performance fallback embeds the exception text (line 332). -/
def performanceFallback (message : PyStr) : Dict :=
  [(pstr "performance_score", .null),
   (pstr "performance_explanation", .str (pstr "Analysis failed: " ++ message))]

/-- `run_full_analysis(transcript, available_products)` (`analysis.py`
lines 288-405). Returns the enhanced record together with the names of the
sub-analyses actually invoked (empty exactly when no external model call is
made). The short-circuit (lines 301-323) fires when the transcript is empty
(falsy) or its stripped length is below 50; otherwise all six sub-analyses
run with per-task fault isolation, the results are merged left to right,
`action_items` is extracted, the merged record is validated, and failed
sub-task names are recorded in `analysis_errors` with a summary warning. -/
def run_full_analysis (transcript : PyStr) (outcomes : SubOutcomes) :
    Dict × List PyStr :=
  if transcript = [] ∨ (pyStrip transcript).length < 50 then
    (minimalAnalysisRecord, [])
  else
    let performance :=
      match outcomes.performance with
      | .ok d => (d, ([] : List PyStr))
      | .exn m => (performanceFallback m, [pstr "performance_analysis"])
    let buying := subResult outcomes.buying
      [(pstr "interest_level", .str (pstr "unknown")),
       (pstr "conversion_likelihood", .num 0),
       (pstr "buying_signals_detected", .arr [])] (pstr "buying_analysis")
    let classification := subResult outcomes.classification
      [(pstr "call_reason", .str (pstr "unknown")),
       (pstr "call_outcome", .str (pstr "unknown"))] (pstr "classification")
    let products := subResult outcomes.products
      [(pstr "products_discussed", .arr []),
       (pstr "recommended_products", .arr [])] (pstr "product_analysis")
    let salesIntel := subResult outcomes.salesIntel
      [(pstr "objections_detected", .arr []),
       (pstr "missed_opportunities", .arr []),
       (pstr "missed_opportunity_flag", .bool false)] (pstr "sales_intelligence")
    let actionItems :=
      match outcomes.actionItems with
      | .ok d => (dget d (pstr "action_items") |>.getD (.arr []), ([] : List PyStr))
      | .exn _ => (.arr [], [pstr "action_items"])
    let analysis_errors := performance.2 ++ buying.2 ++ classification.2
      ++ products.2 ++ salesIntel.2 ++ actionItems.2
    let combined := dset (dmerge (dmerge (dmerge (dmerge performance.1 buying.1)
      classification.1) products.1) salesIntel.1) (pstr "action_items") actionItems.1
    let validated := validate_analysis combined
    let enhanced := validated.2.2
    let enhanced :=
      if analysis_errors = [] then enhanced
      else
        let prev := match dget enhanced (pstr "analysis_warnings") with
          | some (.arr ws) => ws
          | _ => []
        dset (dset enhanced (pstr "analysis_errors")
            (.arr (analysis_errors.map JsonVal.str)))
          (pstr "analysis_warnings")
          (.arr (prev ++ [.str (pstr "Some analysis components failed: "
            ++ joinComma analysis_errors)]))
    (enhanced,
     [pstr "performance_analysis", pstr "buying_analysis", pstr "classification",
      pstr "product_analysis", pstr "sales_intelligence", pstr "action_items"])

/-! ## The pipeline orchestrator state machine (src/backend/app/api/calls.py,
src/backend/app/db/models.py lines 21-27) -/

/-- `CallStatus` (`models.py` lines 21-27). -/
inductive CallStatus where
  | pending
  | transcribing
  | transcribed
  | analyzing
  | analyzed
  | failed
  deriving DecidableEq, Repr

/-- The part of a Call's durable state the orchestrator reads and writes:
its status and whether a Transcript row exists for it. -/
structure CallState where
  status : CallStatus
  hasTranscript : Bool
  deriving DecidableEq, Repr

/-- The operations that move a Call's status, parameterised by the outcomes
of their stages (`true` = the stage returned, `false` = it raised):
`transcribeOp` is the `POST /calls/id/transcribe` endpoint
(`calls.py` lines 220-259), `analyzeOp` is `POST /calls/id/analyze`
(lines 262-335), `processOp` is `POST /calls/id/process` plus the
background `process_call_pipeline` it schedules (lines 338-455). -/
inductive CallOp where
  | transcribeOp (tOk : Bool)
  | analyzeOp (aOk : Bool)
  | processOp (tOk aOk : Bool)
  deriving DecidableEq, Repr

/-- What one operation does: the statuses it commits in order, the final
durable state, whether `run_full_analysis` was invoked, and whether the
operation was instead rejected at its precondition check (HTTP 400 —
no commit at all). -/
structure OpResult where
  commits : List CallStatus
  final : CallState
  analysisInvoked : Bool
  rejected : Bool
  deriving DecidableEq, Repr

/-- Executing one operation against a Call in state `s`, commit by commit,
translated from `calls.py`:

* `transcribeOp` (lines 220-259): reject unless the status is `pending` or
  `failed`; commit `transcribing`; on success persist the Transcript and
  commit `transcribed` in one checkpoint; on failure commit `failed`.
* `analyzeOp` (lines 262-335): reject when no Transcript exists, or when the
  status is neither `transcribed` nor `failed`; commit `analyzing`; run the
  analysis; commit `analyzed` on success, `failed` on failure.
* `processOp` (lines 428-455 and 338-426): reject unless `pending` or
  `failed`; the endpoint commits `transcribing`, the background pipeline
  commits `transcribing` again, then on transcription success persists the
  Transcript, commits `transcribed`, commits `analyzing` and runs the
  analysis (committing `analyzed` or `failed`); on transcription failure it
  commits `failed` and returns — the analysis stage is never invoked. -/
def runCallOp (s : CallState) : CallOp → OpResult
  | .transcribeOp tOk =>
    if s.status = .pending ∨ s.status = .failed then
      if tOk then
        { commits := [.transcribing, .transcribed],
          final := ⟨.transcribed, true⟩, analysisInvoked := false,
          rejected := false }
      else
        { commits := [.transcribing, .failed],
          final := ⟨.failed, s.hasTranscript⟩, analysisInvoked := false,
          rejected := false }
    else
      { commits := [], final := s, analysisInvoked := false, rejected := true }
  | .analyzeOp aOk =>
    if s.hasTranscript = false then
      { commits := [], final := s, analysisInvoked := false, rejected := true }
    else if s.status = .transcribed ∨ s.status = .failed then
      if aOk then
        { commits := [.analyzing, .analyzed],
          final := ⟨.analyzed, s.hasTranscript⟩, analysisInvoked := true,
          rejected := false }
      else
        { commits := [.analyzing, .failed],
          final := ⟨.failed, s.hasTranscript⟩, analysisInvoked := true,
          rejected := false }
    else
      { commits := [], final := s, analysisInvoked := false, rejected := true }
  | .processOp tOk aOk =>
    if s.status = .pending ∨ s.status = .failed then
      if tOk then
        if aOk then
          { commits := [.transcribing, .transcribing, .transcribed,
              .analyzing, .analyzed],
            final := ⟨.analyzed, true⟩, analysisInvoked := true,
            rejected := false }
        else
          { commits := [.transcribing, .transcribing, .transcribed,
              .analyzing, .failed],
            final := ⟨.failed, true⟩, analysisInvoked := true,
            rejected := false }
      else
        { commits := [.transcribing, .transcribing, .failed],
          final := ⟨.failed, s.hasTranscript⟩, analysisInvoked := false,
          rejected := false }
    else
      { commits := [], final := s, analysisInvoked := false, rejected := true }

/-- The legal status edges of the spec's state machine (§4.4):
`pending → transcribing → transcribed → analyzing → analyzed`, `failed`
reachable from `transcribing` and `analyzing`, and the re-entrant start
points: `failed → transcribing` (resubmission) and `failed → analyzing`
(re-analysis of a failed Call with an existing Transcript). -/
def allowedEdge : CallStatus → CallStatus → Bool
  | .pending, .transcribing => true
  | .failed, .transcribing => true
  | .transcribing, .transcribed => true
  | .transcribing, .failed => true
  | .transcribed, .analyzing => true
  | .failed, .analyzing => true
  | .analyzing, .analyzed => true
  | .analyzing, .failed => true
  | _, _ => false

/-- One observable status step: the status is unchanged (a re-commit of the
same value is not a transition) or moves along a legal edge. -/
def statusStep (a b : CallStatus) : Bool :=
  a == b || allowedEdge a b

/-- Scanning a commit sequence: `analyzing` may be committed only when
`transcribed` was already seen — initially, `seen` says whether the
pre-state already licenses analysis (status `transcribed`, or `failed` with
an existing Transcript). -/
def analyzingGuard : Bool → List CallStatus → Bool
  | _, [] => true
  | seen, c :: rest =>
      (c != .analyzing || seen)
        && analyzingGuard (seen || c == .transcribed) rest

/-- Executable check that every observable status step starting at `a`
follows `statusStep`. -/
def chainOk : CallStatus → List CallStatus → Bool
  | _, [] => true
  | a, b :: rest => statusStep a b && chainOk b rest

/-! ## Helper lemmas -/

theorem dget_dset_self (d : Dict) (k : PyStr) (v : JsonVal) :
    dget (dset d k v) k = some v := by
  induction d with
  | nil => simp [dset, dget]
  | cons p rest ih =>
    by_cases h : p.1 = k
    · simp [dset, dget, h]
    · simp [dset, dget, h, ih]

theorem dget_dset_of_ne (d : Dict) (k k' : PyStr) (v : JsonVal)
    (h : k' ≠ k) : dget (dset d k' v) k = dget d k := by
  induction d with
  | nil => simp [dset, dget, h]
  | cons p rest ih =>
    by_cases hp : p.1 = k'
    · simp [dset, dget, hp, h]
    · have hk' : ¬(k = k') := fun hh => h hh.symm
      by_cases hk : p.1 = k
      · simp [dset, dget, hp, hk, hk']
      · simp [dset, dget, hp, hk, ih]

theorem mem_of_containsSub (s sub : PyStr) (c : Char) (hc : c ∈ sub)
    (h : containsSub s sub = true) : c ∈ s := by
  rcases List.any_eq_true.mp h with ⟨i, _, hpre⟩
  exact List.drop_subset i s ((List.isPrefixOf_iff_prefix.mp hpre).subset hc)

theorem range_succ_shift {β : Type} (g : ℕ → β) (m : ℕ) :
    (List.range (m + 1)).map g = g 0 :: (List.range m).map (fun i => g (i + 1)) := by
  rw [List.range_succ_eq_map]
  simp [List.map_map, Function.comp]

theorem chainOk_iff_chain (a : CallStatus) (l : List CallStatus) :
    chainOk a l = true
      ↔ List.Chain' (fun x y => statusStep x y = true) (a :: l) := by
  induction l generalizing a with
  | nil => simp [chainOk]
  | cons b rest ih =>
      rw [show chainOk a (b :: rest) = (statusStep a b && chainOk b rest) from rfl,
        Bool.and_eq_true, ih b, List.chain'_cons]

/-! ## C1: the pipeline status state machine -/

/-- C1: for every Call operation, the committed statuses only follow the
edges `pending → transcribing → transcribed → analyzing → analyzed` with
`failed` reachable from `transcribing` and `analyzing` and `pending`/`failed`
re-entrant start points (part 1, over the observable sequence starting at
the pre-state); `analyzing` is never committed without a prior `transcribed`
commit unless the Call already was `transcribed`, or `failed` with an
existing Transcript (part 2); and when the transcription stage of the
pipeline fails, the orchestrator commits `failed` and never invokes the
analysis stage for that run (part 3). -/
theorem c1_status_state_machine :
    (∀ (s : CallState) (op : CallOp),
        List.Chain' (fun a b => statusStep a b = true)
          (s.status :: (runCallOp s op).commits))
    ∧ (∀ (s : CallState) (op : CallOp),
        analyzingGuard
          (s.status == .transcribed || (s.status == .failed && s.hasTranscript))
          (runCallOp s op).commits = true)
    ∧ (∀ (s : CallState) (aOk : Bool),
        s.status = .pending ∨ s.status = .failed →
        (runCallOp s (.processOp false aOk)).commits
            = [.transcribing, .transcribing, .failed]
          ∧ (runCallOp s (.processOp false aOk)).analysisInvoked = false) := by
  refine ⟨?_, ?_, ?_⟩
  · rintro ⟨st, ht⟩ op
    rw [← chainOk_iff_chain]
    cases op with
    | transcribeOp tOk => cases st <;> cases ht <;> cases tOk <;> decide
    | analyzeOp aOk => cases st <;> cases ht <;> cases aOk <;> decide
    | processOp tOk aOk =>
        cases st <;> cases ht <;> cases tOk <;> cases aOk <;> decide
  · rintro ⟨st, ht⟩ op
    cases op with
    | transcribeOp tOk => cases st <;> cases ht <;> cases tOk <;> decide
    | analyzeOp aOk => cases st <;> cases ht <;> cases aOk <;> decide
    | processOp tOk aOk =>
        cases st <;> cases ht <;> cases tOk <;> cases aOk <;> decide
  · rintro ⟨st, ht⟩ aOk h
    rcases h with h | h <;> subst h <;> cases ht <;> cases aOk <;> decide

/-- Witness for C1: a pending Call with no Transcript whose transcription
stage fails ends at two `transcribing` commits and a `failed` commit, with
the analysis stage never invoked. -/
theorem c1_status_state_machine_witness :
    (CallStatus.pending = CallStatus.pending ∨ CallStatus.pending = CallStatus.failed)
    ∧ ((runCallOp ⟨.pending, false⟩ (.processOp false true)).commits
        = [.transcribing, .transcribing, .failed]
      ∧ (runCallOp ⟨.pending, false⟩ (.processOp false true)).analysisInvoked = false) :=
  ⟨Or.inl rfl,
   c1_status_state_machine.2.2 ⟨.pending, false⟩ true (Or.inl rfl)⟩

/-! ## C2, C3: the backoff executor -/

theorem backoffStep_eq_stepDelay (cfg : BackoffConfig) (attempt : ℕ)
    (e : PyErr) (h : fatalHttp e = false) :
    backoffStep cfg attempt e = some (stepDelay cfg attempt e) := by
  cases e with
  | rateLimit ra =>
      cases ra with
      | none => rfl
      | some m =>
          by_cases hm : m = 0 <;> simp [backoffStep, stepDelay, hintDelay, hm]
  | httpStatus code hdr =>
      have h' : code = 429 ∨ code = 500 ∨ code = 502 ∨ code = 503 ∨ code = 504 := by
        by_contra hh
        push_neg at hh
        obtain ⟨h1, h2, h3, h4, h5⟩ := hh
        simp [fatalHttp, h1, h2, h3, h4, h5] at h
      by_cases hc : code = 429
      · cases hdr <;> simp [backoffStep, stepDelay, hintDelay, hc]
      · have h5 : code = 500 ∨ code = 502 ∨ code = 503 ∨ code = 504 := by
          rcases h' with h' | h' | h' | h' | h'
          · exact absurd h' hc
          · exact Or.inl h'
          · exact Or.inr (Or.inl h')
          · exact Or.inr (Or.inr (Or.inl h'))
          · exact Or.inr (Or.inr (Or.inr h'))
        rcases h5 with h5 | h5 | h5 | h5 <;>
          simp [backoffStep, stepDelay, hintDelay, hc, h5]
  | timeout => rfl
  | apiError m s r => rfl

theorem retryGo_ok_step {α : Type} (cfg : BackoffConfig) (isR : PyErr → Bool)
    (attempts : ℕ → Outcome α) (a r : ℕ) (v : α)
    (hok : attempts a = .ok v) :
    retryGo cfg isR attempts a r = (.ok v, []) := by
  rw [retryGo, hok]

theorem retryGo_err_nonretry {α : Type} (cfg : BackoffConfig)
    (isR : PyErr → Bool) (attempts : ℕ → Outcome α) (a r : ℕ) (e : PyErr)
    (he : attempts a = .err e) (hr : isR e = false) :
    retryGo cfg isR attempts a r = (.error e, []) := by
  rw [retryGo, he]
  simp [hr]

theorem retryGo_err_last {α : Type} (cfg : BackoffConfig)
    (isR : PyErr → Bool) (attempts : ℕ → Outcome α) (a : ℕ) (e : PyErr)
    (he : attempts a = .err e) :
    retryGo cfg isR attempts a 0 = (.error e, []) := by
  rw [retryGo, he]
  by_cases hr : isR e = true <;> simp [hr]

theorem retryGo_err_fatal {α : Type} (cfg : BackoffConfig)
    (isR : PyErr → Bool) (attempts : ℕ → Outcome α) (a r : ℕ) (e : PyErr)
    (he : attempts a = .err e) (hr : isR e = true)
    (hs : backoffStep cfg a e = none) :
    retryGo cfg isR attempts a (r + 1) = (.error e, []) := by
  rw [retryGo, he]
  simp [hr, hs]

theorem retryGo_err_cont {α : Type} (cfg : BackoffConfig)
    (isR : PyErr → Bool) (attempts : ℕ → Outcome α) (a r : ℕ) (e : PyErr)
    (d : ℚ) (he : attempts a = .err e) (hr : isR e = true)
    (hs : backoffStep cfg a e = some d) :
    retryGo cfg isR attempts a (r + 1)
      = ((retryGo cfg isR attempts (a + 1) r).1,
         d :: (retryGo cfg isR attempts (a + 1) r).2) := by
  rw [retryGo, he]
  simp [hr, hs]

theorem retryGo_ok_of_errs {α : Type} (cfg : BackoffConfig)
    (isR : PyErr → Bool) (attempts : ℕ → Outcome α) (errAt : ℕ → PyErr)
    (v : α) :
    ∀ (n a r : ℕ),
      (∀ i, i < n → attempts (a + i) = .err (errAt (a + i))) →
      (∀ i, i < n → isR (errAt (a + i)) = true) →
      (∀ i, i < n → fatalHttp (errAt (a + i)) = false) →
      attempts (a + n) = .ok v → n ≤ r →
      retryGo cfg isR attempts a r
        = (.ok v,
           (List.range n).map (fun i => stepDelay cfg (a + i) (errAt (a + i)))) := by
  intro n
  induction n with
  | zero =>
      intro a r _ _ _ hok _
      simp only [Nat.add_zero] at hok
      simp [retryGo_ok_step cfg isR attempts a r v hok]
  | succ m ih =>
      intro a r herr hret hfat hok hr
      obtain ⟨r', rfl⟩ : ∃ r', r = r' + 1 := ⟨r - 1, by omega⟩
      have h0 : attempts a = .err (errAt a) := by
        simpa using herr 0 (by omega)
      have h0r : isR (errAt a) = true := by
        simpa using hret 0 (by omega)
      have h0f : fatalHttp (errAt a) = false := by
        simpa using hfat 0 (by omega)
      rw [retryGo_err_cont cfg isR attempts a r' (errAt a)
        (stepDelay cfg a (errAt a)) h0 h0r
        (backoffStep_eq_stepDelay cfg a (errAt a) h0f)]
      rw [ih (a + 1) r'
        (fun i hi => by
          rw [show a + 1 + i = a + (i + 1) from by omega]
          exact herr (i + 1) (by omega))
        (fun i hi => by
          rw [show a + 1 + i = a + (i + 1) from by omega]
          exact hret (i + 1) (by omega))
        (fun i hi => by
          rw [show a + 1 + i = a + (i + 1) from by omega]
          exact hfat (i + 1) (by omega))
        (by
          rw [show a + 1 + m = a + (m + 1) from by omega]
          exact hok)
        (by omega)]
      have hlist : (List.range (m + 1)).map
            (fun i => stepDelay cfg (a + i) (errAt (a + i)))
          = stepDelay cfg a (errAt a)
            :: (List.range m).map
              (fun i => stepDelay cfg (a + 1 + i) (errAt (a + 1 + i))) := by
        rw [range_succ_shift (fun i => stepDelay cfg (a + i) (errAt (a + i))) m]
        congr 1
        apply List.map_congr_left
        intro i _
        show stepDelay cfg (a + (i + 1)) (errAt (a + (i + 1)))
          = stepDelay cfg (a + 1 + i) (errAt (a + 1 + i))
        rw [show a + (i + 1) = a + 1 + i from by omega]
      rw [hlist]

theorem retryGo_exhaust {α : Type} (cfg : BackoffConfig)
    (isR : PyErr → Bool) (attempts : ℕ → Outcome α) (errAt : ℕ → PyErr) :
    ∀ (r a : ℕ),
      (∀ i, i ≤ r → attempts (a + i) = .err (errAt (a + i))) →
      (∀ i, i ≤ r → isR (errAt (a + i)) = true) →
      (∀ i, i ≤ r → fatalHttp (errAt (a + i)) = false) →
      retryGo cfg isR attempts a r
        = (.error (errAt (a + r)),
           (List.range r).map (fun i => stepDelay cfg (a + i) (errAt (a + i)))) := by
  intro r
  induction r with
  | zero =>
      intro a herr _ _
      have h0 : attempts a = .err (errAt a) := by
        simpa using herr 0 (by omega)
      simp [retryGo_err_last cfg isR attempts a (errAt a) h0]
  | succ m ih =>
      intro a herr hret hfat
      have h0 : attempts a = .err (errAt a) := by
        simpa using herr 0 (by omega)
      have h0r : isR (errAt a) = true := by
        simpa using hret 0 (by omega)
      have h0f : fatalHttp (errAt a) = false := by
        simpa using hfat 0 (by omega)
      rw [retryGo_err_cont cfg isR attempts a m (errAt a)
        (stepDelay cfg a (errAt a)) h0 h0r
        (backoffStep_eq_stepDelay cfg a (errAt a) h0f)]
      rw [ih (a + 1)
        (fun i hi => by
          rw [show a + 1 + i = a + (i + 1) from by omega]
          exact herr (i + 1) (by omega))
        (fun i hi => by
          rw [show a + 1 + i = a + (i + 1) from by omega]
          exact hret (i + 1) (by omega))
        (fun i hi => by
          rw [show a + 1 + i = a + (i + 1) from by omega]
          exact hfat (i + 1) (by omega))]
      have hlist : (List.range (m + 1)).map
            (fun i => stepDelay cfg (a + i) (errAt (a + i)))
          = stepDelay cfg a (errAt a)
            :: (List.range m).map
              (fun i => stepDelay cfg (a + 1 + i) (errAt (a + 1 + i))) := by
        rw [range_succ_shift (fun i => stepDelay cfg (a + i) (errAt (a + i))) m]
        congr 1
        apply List.map_congr_left
        intro i _
        show stepDelay cfg (a + (i + 1)) (errAt (a + (i + 1)))
          = stepDelay cfg (a + 1 + i) (errAt (a + 1 + i))
        rw [show a + (i + 1) = a + 1 + i from by omega]
      rw [hlist, show a + 1 + m = a + (m + 1) from by omega]

/-- C2: when the wrapped operation fails with a retryable (non-fatal) error
on attempts `1..N-1` and succeeds on attempt `N` (indices `0..n-1` and `n`
here, `n ≤ max_retries`, so `N = n + 1 ≤ max_retries + 1`), the wrapper
returns the operation's result and sleeps exactly `n` times; each sleep is
`min(base_delay * exponential_base ^ attempt, max_delay)`, except that a
rate-limit failure carrying a server wait hint uses the hint in place of
the exponential term (still capped at `max_delay`, as the code caps after
the substitution); hence the delays are all capped, and non-decreasing
whenever no wait hint intervenes. -/
theorem c2_backoff_retry_success {α : Type} (cfg : BackoffConfig)
    (isRetryable : PyErr → Bool) (attempts : ℕ → Outcome α)
    (errAt : ℕ → PyErr) (v : α) (n : ℕ)
    (herr : ∀ i, i < n → attempts i = .err (errAt i))
    (hret : ∀ i, i < n → isRetryable (errAt i) = true)
    (hfat : ∀ i, i < n → fatalHttp (errAt i) = false)
    (hok : attempts n = .ok v)
    (hn : n ≤ cfg.max_retries) :
    retry_with_backoff cfg isRetryable attempts
        = (.ok v, (List.range n).map (fun i => stepDelay cfg i (errAt i)))
      ∧ (∀ d ∈ (retry_with_backoff cfg isRetryable attempts).2,
          d ≤ cfg.max_delay)
      ∧ ((∀ i, i < n → hintDelay (errAt i) = none) →
          0 ≤ cfg.base_delay → 1 ≤ cfg.exponential_base →
          List.Chain' (fun d1 d2 => d1 ≤ d2)
            (retry_with_backoff cfg isRetryable attempts).2) := by
  have hmain : retry_with_backoff cfg isRetryable attempts
      = (.ok v, (List.range n).map (fun i => stepDelay cfg i (errAt i))) := by
    unfold retry_with_backoff
    have := retryGo_ok_of_errs cfg isRetryable attempts errAt v n 0
      cfg.max_retries
      (fun i hi => by simpa using herr i hi)
      (fun i hi => by simpa using hret i hi)
      (fun i hi => by simpa using hfat i hi)
      (by simpa using hok) hn
    simpa using this
  refine ⟨hmain, ?_, ?_⟩
  · intro d hd
    rw [hmain] at hd
    simp only [List.mem_map, List.mem_range] at hd
    obtain ⟨i, _, rfl⟩ := hd
    exact min_le_right _ _
  · intro hhint hbase hexp
    rw [hmain]
    cases n with
    | zero => simp
    | succ m =>
        rw [List.chain'_map, List.chain'_range_succ]
        intro i hi
        have hs1 : stepDelay cfg i (errAt i)
            = min (cfg.base_delay * cfg.exponential_base ^ i) cfg.max_delay := by
          simp [stepDelay, hhint i (by omega)]
        have hs2 : stepDelay cfg (i + 1) (errAt (i + 1))
            = min (cfg.base_delay * cfg.exponential_base ^ (i + 1))
                cfg.max_delay := by
          simp [stepDelay, hhint (i + 1) (by omega)]
        rw [hs1, hs2]
        exact min_le_min
          (mul_le_mul_of_nonneg_left
            (pow_le_pow_right₀ hexp (Nat.le_succ i)) hbase) le_rfl

/-- Witness for C2: with the default configuration shape
`(max_retries 3, base_delay 1, max_delay 60, multiplier 2)` and two
transient timeouts before success, the wrapper returns the value after
sleeping 1 s and then 2 s. -/
theorem c2_backoff_retry_success_witness :
    ((fun i => if i < 2 then Outcome.err (α := ℕ) .timeout else .ok 42) 2
        = Outcome.ok 42)
    ∧ retry_with_backoff ⟨3, 1, 60, 2⟩ defaultRetryable
        (fun i => if i < 2 then Outcome.err (α := ℕ) .timeout else .ok 42)
      = (.ok 42,
         (List.range 2).map (fun i => stepDelay ⟨3, 1, 60, 2⟩ i
           ((fun _ => PyErr.timeout) i))) :=
  ⟨by decide,
   (c2_backoff_retry_success ⟨3, 1, 60, 2⟩ defaultRetryable
     (fun i => if i < 2 then Outcome.err (α := ℕ) .timeout else .ok 42)
     (fun _ => PyErr.timeout) 42 2
     (by decide) (by decide) (by decide) (by decide) (by decide)).1⟩

/-- C3: a failure outside the configured retryable set on the first attempt
propagates unchanged with no sleep and no retry (part 1); under the default
retryable set, an `HTTPStatusError` whose status is outside
`(429, 500, 502, 503, 504)` — e.g. any other 4xx — likewise propagates
at once with no sleep (part 2); and when every attempt fails retryably the
final failure (the one raised on attempt `max_retries + 1`) is propagated
unchanged after the full sequence of backoff sleeps (part 3). -/
theorem c3_backoff_propagation {α : Type} :
    (∀ (cfg : BackoffConfig) (isRetryable : PyErr → Bool)
        (attempts : ℕ → Outcome α) (e : PyErr),
        attempts 0 = .err e → isRetryable e = false →
        retry_with_backoff cfg isRetryable attempts = (.error e, []))
    ∧ (∀ (cfg : BackoffConfig) (attempts : ℕ → Outcome α) (code : ℕ)
        (hdr : Option ℕ),
        attempts 0 = .err (.httpStatus code hdr) →
        code ≠ 429 → code ≠ 500 → code ≠ 502 → code ≠ 503 → code ≠ 504 →
        retry_with_backoff cfg defaultRetryable attempts
          = (.error (.httpStatus code hdr), []))
    ∧ (∀ (cfg : BackoffConfig) (isRetryable : PyErr → Bool)
        (attempts : ℕ → Outcome α) (errAt : ℕ → PyErr),
        (∀ i, i ≤ cfg.max_retries → attempts i = .err (errAt i)) →
        (∀ i, i ≤ cfg.max_retries → isRetryable (errAt i) = true) →
        (∀ i, i ≤ cfg.max_retries → fatalHttp (errAt i) = false) →
        retry_with_backoff cfg isRetryable attempts
          = (.error (errAt cfg.max_retries),
             (List.range cfg.max_retries).map
               (fun i => stepDelay cfg i (errAt i)))) := by
  refine ⟨?_, ?_, ?_⟩
  · intro cfg isRetryable attempts e h0 hret
    unfold retry_with_backoff
    exact retryGo_err_nonretry cfg isRetryable attempts 0 cfg.max_retries e h0 hret
  · intro cfg attempts code hdr h0 h1 h2 h3 h4 h5
    have hstep : backoffStep cfg 0 (.httpStatus code hdr) = none := by
      simp [backoffStep, h1, h2, h3, h4, h5]
    unfold retry_with_backoff
    cases hmr : cfg.max_retries with
    | zero => exact retryGo_err_last cfg defaultRetryable attempts 0 _ h0
    | succ m =>
        exact retryGo_err_fatal cfg defaultRetryable attempts 0 m _ h0 rfl hstep
  · intro cfg isRetryable attempts errAt herr hret hfat
    unfold retry_with_backoff
    have := retryGo_exhaust cfg isRetryable attempts errAt cfg.max_retries 0
      (fun i hi => by simpa using herr i hi)
      (fun i hi => by simpa using hret i hi)
      (fun i hi => by simpa using hfat i hi)
    simpa using this

/-- Witness for C3: a non-retryable `AnalysisError`-style failure (a 400
`APIError` outside the default retryable tuple) on the first attempt
propagates unchanged with an empty sleep list. -/
theorem c3_backoff_propagation_witness :
    (defaultRetryable (.apiError (pstr "bad request") 400 false) = false)
    ∧ retry_with_backoff ⟨3, 1, 60, 2⟩ defaultRetryable
        (fun _ => Outcome.err (α := ℕ) (.apiError (pstr "bad request") 400 false))
      = (.error (.apiError (pstr "bad request") 400 false), []) :=
  ⟨rfl,
   c3_backoff_propagation.1 ⟨3, 1, 60, 2⟩ defaultRetryable
     (fun _ => Outcome.err (α := ℕ) (.apiError (pstr "bad request") 400 false))
     (.apiError (pstr "bad request") 400 false) rfl rfl⟩

/-! ## C4, C10: the result parser -/

theorem parse_json_response_eq (loads : PyStr → Option JsonVal)
    (response : PyStr) (default : JsonVal) :
    parse_json_response loads response default
      = if response = [] then default
        else
          match strategy1 loads response with
          | some v => v
          | none =>
            match strategy2 loads response with
            | some v => v
            | none =>
              match strategy3 loads response with
              | some v => v
              | none =>
                match strategy4 loads response with
                | some v => v
                | none => default := rfl

theorem strategy2_nil (loads : PyStr → Option JsonVal) :
    strategy2 loads [] = none := rfl

theorem strategy3_nil (loads : PyStr → Option JsonVal) :
    strategy3 loads [] = none := rfl

theorem strategy4_nil (loads : PyStr → Option JsonVal) :
    strategy4 loads [] = none := rfl

/-- C4: the parser tries the four strategies in order — whole text, fenced
block tagged `json`, any fenced block, first `{` to last `}` — and returns
the first success; when all four fail it returns the caller-supplied
default. (`loads` is `json.loads`; the sole assumption is that the empty
string is not valid JSON, which is true of `json.loads("")`.) Totality of
`parse_json_response` is the never-raises half of the claim. -/
theorem c4_parser_strategy_order (loads : PyStr → Option JsonVal)
    (hempty : loads [] = none) :
    (∀ (response : PyStr) (default v : JsonVal),
        strategy1 loads response = some v →
        parse_json_response loads response default = v)
    ∧ (∀ (response : PyStr) (default v : JsonVal),
        strategy1 loads response = none →
        strategy2 loads response = some v →
        parse_json_response loads response default = v)
    ∧ (∀ (response : PyStr) (default v : JsonVal),
        strategy1 loads response = none →
        strategy2 loads response = none →
        strategy3 loads response = some v →
        parse_json_response loads response default = v)
    ∧ (∀ (response : PyStr) (default v : JsonVal),
        strategy1 loads response = none →
        strategy2 loads response = none →
        strategy3 loads response = none →
        strategy4 loads response = some v →
        parse_json_response loads response default = v)
    ∧ (∀ (response : PyStr) (default : JsonVal),
        strategy1 loads response = none →
        strategy2 loads response = none →
        strategy3 loads response = none →
        strategy4 loads response = none →
        parse_json_response loads response default = default) := by
  refine ⟨?_, ?_, ?_, ?_, ?_⟩
  · intro r d v h1
    by_cases hr : r = []
    · subst hr
      rw [strategy1, hempty] at h1
      exact absurd h1 (by simp)
    · rw [parse_json_response_eq]
      simp [hr, h1]
  · intro r d v h1 h2
    by_cases hr : r = []
    · subst hr
      rw [strategy2_nil] at h2
      exact absurd h2 (by simp)
    · rw [parse_json_response_eq]
      simp [hr, h1, h2]
  · intro r d v h1 h2 h3
    by_cases hr : r = []
    · subst hr
      rw [strategy3_nil] at h3
      exact absurd h3 (by simp)
    · rw [parse_json_response_eq]
      simp [hr, h1, h2, h3]
  · intro r d v h1 h2 h3 h4
    by_cases hr : r = []
    · subst hr
      rw [strategy4_nil] at h4
      exact absurd h4 (by simp)
    · rw [parse_json_response_eq]
      simp [hr, h1, h2, h3, h4]
  · intro r d h1 h2 h3 h4
    by_cases hr : r = []
    · subst hr
      rw [parse_json_response_eq]
      simp
    · rw [parse_json_response_eq]
      simp [hr, h1, h2, h3, h4]

/-- Witness for C4: on `"no json here"` every strategy fails and the
caller-supplied default (the empty object) is returned. -/
theorem c4_parser_strategy_order_witness :
    ((fun (_ : PyStr) => (none : Option JsonVal)) [] = none)
    ∧ parse_json_response (fun _ => none) (pstr "no json here") (.obj [])
      = .obj [] :=
  ⟨rfl,
   (c4_parser_strategy_order (fun _ => none) rfl).2.2.2.2
     (pstr "no json here") (.obj []) rfl rfl rfl rfl⟩

/-- C10: whenever the entire response parses as JSON of any type, the
parsed value is returned as-is — even when it is not an object — so a
caller expecting a structured object can receive a non-object value
(witnessed by a response that is a bare JSON array). -/
theorem c10_parser_returns_nonobject :
    (∀ (loads : PyStr → Option JsonVal) (response : PyStr)
        (default v : JsonVal),
        response ≠ [] → loads response = some v →
        parse_json_response loads response default = v)
    ∧ ∃ (loads : PyStr → Option JsonVal) (response : PyStr),
        (parse_json_response loads response (.obj [])).isObj = false := by
  constructor
  · intro loads r d v hne hv
    rw [parse_json_response_eq]
    simp only [hne, if_false]
    rw [strategy1, hv]
  · refine ⟨fun s => if s = pstr "[1]" then some (.arr [.num 1]) else none,
      pstr "[1]", ?_⟩
    rfl

/-- Witness for C10: the response `"[1]"`, which `loads` reads as the JSON
array `[1]`, is returned as-is — an array, not a dict. -/
theorem c10_parser_returns_nonobject_witness :
    ((pstr "[1]") ≠ ([] : PyStr))
    ∧ parse_json_response
        (fun s => if s = pstr "[1]" then some (.arr [.num 1]) else none)
        (pstr "[1]") (.obj []) = .arr [.num 1] :=
  ⟨by decide,
   c10_parser_returns_nonobject.1
     (fun s => if s = pstr "[1]" then some (.arr [.num 1]) else none)
     (pstr "[1]") (.obj []) (.arr [.num 1]) (by decide) rfl⟩

/-! ## C5, C6: the job poller -/

theorem transcribePollGo_nonterminal_step (polls : ℕ → PollResult)
    (a r : ℕ) (h : isTerminalPoll (polls a) = false) :
    transcribePollGo polls a (r + 1)
      = ((transcribePollGo polls (a + 1) r).1,
         (transcribePollGo polls (a + 1) r).2 + 1) := by
  cases hp : polls a with
  | pollError => rw [transcribePollGo, hp]
  | statusData sd =>
      rw [hp] at h
      simp only [isTerminalPoll, Bool.or_eq_false_iff,
        decide_eq_false_iff_not] at h
      obtain ⟨⟨h1, h2⟩, h3⟩ := h
      rw [transcribePollGo, hp]
      simp [h1, h2, h3]

theorem transcribePollGo_succeeded_step (polls : ℕ → PollResult)
    (a r : ℕ) (sd : StatusData) (hp : polls a = .statusData sd)
    (hs : sd.status = some (pstr "succeeded")) :
    transcribePollGo polls a (r + 1) = (.ok (mkTranscribeResult sd), 1) := by
  rw [transcribePollGo, hp]
  simp [hs]

theorem transcribePollGo_skip (polls : ℕ → PollResult) (sd : StatusData) :
    ∀ (n a r : ℕ), n < r →
      (∀ i, i < n → isTerminalPoll (polls (a + i)) = false) →
      polls (a + n) = .statusData sd →
      sd.status = some (pstr "succeeded") →
      transcribePollGo polls a r = (.ok (mkTranscribeResult sd), n + 1) := by
  intro n
  induction n with
  | zero =>
      intro a r hr hnt hp hs
      obtain ⟨r', rfl⟩ : ∃ r', r = r' + 1 := ⟨r - 1, by omega⟩
      simp only [Nat.add_zero] at hp
      exact transcribePollGo_succeeded_step polls a r' sd hp hs
  | succ m ih =>
      intro a r hr hnt hp hs
      obtain ⟨r', rfl⟩ : ∃ r', r = r' + 1 := ⟨r - 1, by omega⟩
      have h0 : isTerminalPoll (polls a) = false := by
        simpa using hnt 0 (by omega)
      rw [transcribePollGo_nonterminal_step polls a r' h0]
      rw [ih (a + 1) r' (by omega)
        (fun i hi => by
          rw [show a + 1 + i = a + (i + 1) from by omega]
          exact hnt (i + 1) (by omega))
        (by
          rw [show a + 1 + m = a + (m + 1) from by omega]
          exact hp) hs]

theorem transcribePollGo_timeout (polls : ℕ → PollResult) :
    ∀ (r a : ℕ),
      (∀ i, i < r → isTerminalPoll (polls (a + i)) = false) →
      transcribePollGo polls a r = (.error transcribeTimeoutError, r) := by
  intro r
  induction r with
  | zero => intro a _; rfl
  | succ m ih =>
      intro a hnt
      have h0 : isTerminalPoll (polls a) = false := by
        simpa using hnt 0 (by omega)
      rw [transcribePollGo_nonterminal_step polls a m h0]
      rw [ih (a + 1)
        (fun i hi => by
          rw [show a + 1 + i = a + (i + 1) from by omega]
          exact hnt (i + 1) (by omega))]

/-- C5: a poll attempt that exhausts its own retry budget (or raises at
all) is skipped and the loop continues to the next interval rather than
aborting the job — a later `succeeded` poll still returns its payload
(part 1); and when the fixed ceiling of 120 polls at 5-second intervals
passes with no terminal status, the poller fails with the timeout error
(part 2), which is explicitly marked retryable (part 3). -/
theorem c5_poller_error_handling :
    (∀ (pollAttempts : ℕ → ℕ → Outcome StatusData) (n : ℕ) (sd : StatusData),
        n < max_polls →
        (∀ i, i < n → pollOnce pollAttempts i = .pollError) →
        pollOnce pollAttempts n = .statusData sd →
        sd.status = some (pstr "succeeded") →
        transcribe_audio_poll pollAttempts
          = (.ok (mkTranscribeResult sd), n + 1))
    ∧ (∀ (pollAttempts : ℕ → ℕ → Outcome StatusData),
        (∀ i, i < max_polls →
          isTerminalPoll (pollOnce pollAttempts i) = false) →
        transcribe_audio_poll pollAttempts
          = (.error transcribeTimeoutError, max_polls))
    ∧ apiRetryable transcribeTimeoutError = true := by
  refine ⟨?_, ?_, rfl⟩
  · intro pollAttempts n sd hn hperr hp hs
    unfold transcribe_audio_poll
    exact transcribePollGo_skip (pollOnce pollAttempts) sd n 0 max_polls hn
      (fun i hi => by rw [show 0 + i = i from by omega, hperr i hi]; rfl)
      (by rw [show 0 + n = n from by omega]; exact hp) hs
  · intro pollAttempts hnt
    unfold transcribe_audio_poll
    exact transcribePollGo_timeout (pollOnce pollAttempts) max_polls 0
      (fun i hi => by rw [show 0 + i = i from by omega]; exact hnt i hi)

/-- Witness for C5: the first poll attempt exhausts its smaller retry
budget (every request times out), the second poll reports `succeeded`; the
loop still returns the payload after 2 intervals. -/
theorem c5_poller_error_handling_witness :
    (pollOnce (fun pc _ => if pc = 0 then Outcome.err .timeout
        else .ok ⟨some (pstr "succeeded"), some (.asStr (pstr "ok")), none⟩) 0
      = .pollError)
    ∧ transcribe_audio_poll (fun pc _ => if pc = 0 then Outcome.err .timeout
        else .ok ⟨some (pstr "succeeded"), some (.asStr (pstr "ok")), none⟩)
      = (.ok (mkTranscribeResult
          ⟨some (pstr "succeeded"), some (.asStr (pstr "ok")), none⟩), 2) :=
  ⟨rfl,
   c5_poller_error_handling.1
     (fun pc _ => if pc = 0 then Outcome.err .timeout
       else .ok ⟨some (pstr "succeeded"), some (.asStr (pstr "ok")), none⟩)
     1 ⟨some (pstr "succeeded"), some (.asStr (pstr "ok")), none⟩
     (by norm_num [max_polls])
     (fun i hi => by
       have : i = 0 := by omega
       subst this
       rfl)
     rfl rfl⟩

/-- C6 (amended): for a job whose successive poll responses report the
status sequence `[running, running, succeeded]`, the poller returns the
succeeded payload after exactly 3 fixed-interval sleeps: the loop sleeps
before every poll attempt, including the first (`transcription.py` line
128), so a job that succeeds on its `N`-th poll costs `N` sleeps, not
`N - 1`. -/
theorem c6_poller_sleep_count (pollAttempts : ℕ → ℕ → Outcome StatusData)
    (sd0 sd1 sd2 : StatusData)
    (h0 : pollOnce pollAttempts 0 = .statusData sd0)
    (h0s : sd0.status = some (pstr "running"))
    (h1 : pollOnce pollAttempts 1 = .statusData sd1)
    (h1s : sd1.status = some (pstr "running"))
    (h2 : pollOnce pollAttempts 2 = .statusData sd2)
    (h2s : sd2.status = some (pstr "succeeded")) :
    transcribe_audio_poll pollAttempts = (.ok (mkTranscribeResult sd2), 3) := by
  unfold transcribe_audio_poll
  exact transcribePollGo_skip (pollOnce pollAttempts) sd2 2 0 max_polls
    (by norm_num [max_polls])
    (fun i hi => by
      interval_cases i
      · rw [show (0 : ℕ) + 0 = 0 from rfl, h0]
        simp only [isTerminalPoll, h0s]
        decide
      · rw [show (0 : ℕ) + 1 = 1 from rfl, h1]
        simp only [isTerminalPoll, h1s]
        decide)
    (by rw [show (0 : ℕ) + 2 = 2 from rfl]; exact h2) h2s

/-- Counterexample to C6 as stated: with poll statuses
`[running, running, succeeded]`, the number of fixed-interval sleeps before
the payload is extracted is 3, not the claimed 2. -/
theorem c6_poller_sleep_count_counterexample :
    (transcribe_audio_poll (fun pc _ =>
        .ok ⟨some (if pc < 2 then pstr "running" else pstr "succeeded"),
             some (.asStr (pstr "hello")), none⟩)).2 = 3
    ∧ ((transcribe_audio_poll (fun pc _ =>
        .ok ⟨some (if pc < 2 then pstr "running" else pstr "succeeded"),
             some (.asStr (pstr "hello")), none⟩)).2 = 2 → False) := by
  have h := c6_poller_sleep_count (fun pc _ =>
      .ok ⟨some (if pc < 2 then pstr "running" else pstr "succeeded"),
           some (.asStr (pstr "hello")), none⟩)
    ⟨some (pstr "running"), some (.asStr (pstr "hello")), none⟩
    ⟨some (pstr "running"), some (.asStr (pstr "hello")), none⟩
    ⟨some (pstr "succeeded"), some (.asStr (pstr "hello")), none⟩
    rfl rfl rfl rfl rfl rfl
  rw [h]
  exact ⟨rfl, by omega⟩

/-- Witness for the amended C6: a concrete
`[running, running, succeeded]` poll sequence yields the succeeded payload
with exactly 3 fixed-interval sleeps. -/
theorem c6_poller_sleep_count_witness :
    (pollOnce (fun pc _ =>
        .ok ⟨some (if pc < 2 then pstr "running" else pstr "succeeded"),
             some (.asStr (pstr "hi")), none⟩) 2
      = .statusData ⟨some (pstr "succeeded"), some (.asStr (pstr "hi")), none⟩)
    ∧ transcribe_audio_poll (fun pc _ =>
        .ok ⟨some (if pc < 2 then pstr "running" else pstr "succeeded"),
             some (.asStr (pstr "hi")), none⟩)
      = (.ok (mkTranscribeResult
          ⟨some (pstr "succeeded"), some (.asStr (pstr "hi")), none⟩), 3) :=
  ⟨rfl,
   c6_poller_sleep_count (fun pc _ =>
       .ok ⟨some (if pc < 2 then pstr "running" else pstr "succeeded"),
            some (.asStr (pstr "hi")), none⟩)
     ⟨some (pstr "running"), some (.asStr (pstr "hi")), none⟩
     ⟨some (pstr "running"), some (.asStr (pstr "hi")), none⟩
     ⟨some (pstr "succeeded"), some (.asStr (pstr "hi")), none⟩
     rfl rfl rfl rfl rfl rfl⟩

/-! ## C7: the short-transcript short circuit -/

/-- C7: for an empty transcript, or one whose stripped length is below 50
characters, the analysis stage invokes no sub-analysis (no external model
call: the invoked-task list is empty) and returns the fixed minimal record:
zero scores and confidences, `unknown` classifications, empty collections,
and the too-short warning. -/
theorem c7_short_transcript_short_circuit (transcript : PyStr)
    (outcomes : SubOutcomes)
    (h : transcript = [] ∨ (pyStrip transcript).length < 50) :
    run_full_analysis transcript outcomes = (minimalAnalysisRecord, [])
      ∧ dget minimalAnalysisRecord (pstr "performance_score") = some (.num 0)
      ∧ dget minimalAnalysisRecord (pstr "call_reason_confidence")
        = some (.num 0)
      ∧ dget minimalAnalysisRecord (pstr "call_outcome_confidence")
        = some (.num 0)
      ∧ dget minimalAnalysisRecord (pstr "conversion_likelihood")
        = some (.num 0)
      ∧ dget minimalAnalysisRecord (pstr "overall_confidence") = some (.num 0)
      ∧ dget minimalAnalysisRecord (pstr "call_reason")
        = some (.str (pstr "unknown"))
      ∧ dget minimalAnalysisRecord (pstr "call_outcome")
        = some (.str (pstr "unknown"))
      ∧ dget minimalAnalysisRecord (pstr "interest_level")
        = some (.str (pstr "unknown"))
      ∧ (∀ k ∈ [pstr "buying_signals_detected", pstr "sentiment_progression",
          pstr "products_discussed", pstr "recommended_products",
          pstr "objections_detected", pstr "missed_opportunities",
          pstr "action_items"],
          dget minimalAnalysisRecord k = some (.arr []))
      ∧ dget minimalAnalysisRecord (pstr "analysis_warnings")
        = some (.arr [.str (pstr "Transcript too short for meaningful analysis")]) := by
  refine ⟨?_, rfl, rfl, rfl, rfl, rfl, rfl, rfl, rfl, ?_, rfl⟩
  · unfold run_full_analysis
    rw [if_pos h]
  · intro k hk
    fin_cases hk <;> rfl

/-- Witness for C7: a transcript of length 10, well below the 50-character
floor, short-circuits to the minimal record with no sub-analysis invoked. -/
theorem c7_short_transcript_short_circuit_witness :
    ((pstr "hello call") = [] ∨ (pyStrip (pstr "hello call")).length < 50)
    ∧ run_full_analysis (pstr "hello call")
        ⟨.exn [], .exn [], .exn [], .exn [], .exn [], .exn []⟩
      = (minimalAnalysisRecord, []) :=
  ⟨Or.inr (by decide),
   (c7_short_transcript_short_circuit (pstr "hello call")
     ⟨.exn [], .exn [], .exn [], .exn [], .exn [], .exn []⟩
     (Or.inr (by decide))).1⟩

/-! ## C8, C9: the validation and confidence layer -/

theorem digitChar10_mem (m : ℕ) :
    digitChar10 m ∈ ['0', '1', '2', '3', '4', '5', '6', '7', '8', '9'] := by
  unfold digitChar10
  split <;> decide

theorem mem_natToStrGo (c : Char) :
    ∀ (n : ℕ) (acc : PyStr), c ∈ natToStrGo n acc →
      c ∈ acc ∨ ∃ m : ℕ, c = digitChar10 m := by
  intro n
  induction n using Nat.strong_induction_on with
  | _ n ih =>
      intro acc hc
      rw [natToStrGo] at hc
      by_cases h : n < 10
      · rw [dif_pos h] at hc
        rcases List.mem_cons.mp hc with hc | hc
        · exact Or.inr ⟨n, hc⟩
        · exact Or.inl hc
      · rw [dif_neg h] at hc
        rcases ih (n / 10) (Nat.div_lt_self (by omega) (by norm_num)) _ hc with
          hc | hc
        · rcases List.mem_cons.mp hc with hc | hc
          · exact Or.inr ⟨n, hc⟩
          · exact Or.inl hc
        · exact Or.inr hc

theorem mem_ratToStr_ne_M (q : ℚ) (c : Char) (h : c ∈ ratToStr q) :
    c ≠ 'M' := by
  have hdig : ∀ m : ℕ, digitChar10 m ≠ 'M' := by
    intro m hm
    have := digitChar10_mem m
    rw [hm] at this
    simp at this
  have hnat : ∀ (n : ℕ), c ∈ natToStr n → c ≠ 'M' := by
    intro n hn
    rcases mem_natToStrGo c n [] hn with hc | ⟨m, rfl⟩
    · simp at hc
    · exact hdig m
  rcases List.mem_append.mp h with h | h
  · unfold intToStr at h
    split at h
    · rcases List.mem_cons.mp h with h | h
      · subst h; decide
      · exact hnat _ h
    · exact hnat _ h
  · split at h
    · simp at h
    · rcases List.mem_cons.mp h with h | h
      · subst h; decide
      · exact hnat _ h

/-- For any confidence value and either related field, the low-confidence
warning never contains the substring `"Missing"`, so it never affects
validity. -/
theorem lowConfMsg_no_missing (q : ℚ) (f : PyStr) (hf : 'M' ∉ f) :
    containsSub (lowConfMsg q f) (pstr "Missing") = false := by
  by_contra h
  have h' : containsSub (lowConfMsg q f) (pstr "Missing") = true := by
    revert h
    cases containsSub (lowConfMsg q f) (pstr "Missing") <;> simp
  have hm : 'M' ∈ lowConfMsg q f :=
    mem_of_containsSub _ _ 'M' (by decide) h'
  unfold lowConfMsg at hm
  rcases List.mem_append.mp hm with hm | hm
  · rcases List.mem_append.mp hm with hm | hm
    · rcases List.mem_append.mp hm with hm | hm
      · rcases List.mem_append.mp hm with hm | hm
        · simp [pstr] at hm
        · exact mem_ratToStr_ne_M q 'M' hm rfl
      · simp [pstr] at hm
    · exact hf hm
  · simp [pstr] at hm

theorem validate_warnings_split (analysis : Dict) :
    (validate_analysis analysis).2.1
      = missingWarnings analysis ++ lowConfWarnings analysis := by
  by_cases h1 : isMissingField analysis (pstr "performance_score") <;>
    by_cases h2 : isMissingField analysis (pstr "call_reason") <;>
      by_cases h3 : isMissingField analysis (pstr "call_outcome") <;>
        rcases hf1 : lowConfFires analysis (pstr "call_reason_confidence")
          with _ | q1 <;>
          rcases hf2 : lowConfFires analysis (pstr "call_outcome_confidence")
            with _ | q2 <;>
            simp [validate_analysis, missingWarnings, lowConfWarnings,
              requiredFields, confidenceFields, h1, h2, h3, hf1, hf2]

theorem lowConfMsg_reason_no_missing (q : ℚ) :
    containsSub (lowConfMsg q (pstr "call_reason")) (pstr "Missing")
      = false :=
  lowConfMsg_no_missing q _ (by decide)

theorem lowConfMsg_outcome_no_missing (q : ℚ) :
    containsSub (lowConfMsg q (pstr "call_outcome")) (pstr "Missing")
      = false :=
  lowConfMsg_no_missing q _ (by decide)

theorem validate_is_valid_iff (analysis : Dict) :
    (validate_analysis analysis).1 = true
      ↔ ∀ f ∈ requiredFields, isMissingField analysis f = false := by
  by_cases h1 : isMissingField analysis (pstr "performance_score") <;>
    by_cases h2 : isMissingField analysis (pstr "call_reason") <;>
      by_cases h3 : isMissingField analysis (pstr "call_outcome") <;>
        rcases hf1 : lowConfFires analysis (pstr "call_reason_confidence")
          with _ | q1 <;>
          rcases hf2 : lowConfFires analysis (pstr "call_outcome_confidence")
            with _ | q2 <;>
            simp [validate_analysis, requiredFields, confidenceFields,
              h1, h2, h3, hf1, hf2, List.filter,
              lowConfMsg_reason_no_missing, lowConfMsg_outcome_no_missing,
              show containsSub (missingMsg (pstr "performance_score"))
                (pstr "Missing") = true from by decide,
              show containsSub (missingMsg (pstr "call_reason"))
                (pstr "Missing") = true from by decide,
              show containsSub (missingMsg (pstr "call_outcome"))
                (pstr "Missing") = true from by decide]

theorem dget_dset2_other (d : Dict) (k k1 k2 : PyStr) (v1 v2 : JsonVal)
    (h1 : k1 ≠ k) (h2 : k2 ≠ k) :
    dget (dset (dset d k1 v1) k2 v2) k = dget d k := by
  rw [dget_dset_of_ne _ _ _ _ h2, dget_dset_of_ne _ _ _ _ h1]

theorem dget_dset_eq_key (d : Dict) (k k' : PyStr) (v : JsonVal)
    (h : k' = k) : dget (dset d k' v) k = some v := by
  subst h
  exact dget_dset_self d k' v

theorem validate_flag_reason (analysis : Dict) :
    dget (validate_analysis analysis).2.2 (pstr "call_reason_uncertain")
      = match lowConfFires analysis (pstr "call_reason_confidence") with
        | some _ => some (.bool true)
        | none => dget analysis (pstr "call_reason_uncertain") := by
  rcases hf1 : lowConfFires analysis (pstr "call_reason_confidence")
    with _ | q1 <;>
    rcases hf2 : lowConfFires analysis (pstr "call_outcome_confidence")
      with _ | q2 <;>
      simp only [validate_analysis, confidenceFields, List.foldl_cons,
        List.foldl_nil, hf1, hf2] <;>
      rw [dget_dset2_other _ _ _ _ _ _ (by decide) (by decide)] <;>
      first
        | rfl
        | rw [dget_dset_eq_key _ _ _ _ (by decide)]
        | rw [dget_dset_of_ne _ _ _ _ (by decide),
            dget_dset_eq_key _ _ _ _ (by decide)]
        | rw [dget_dset_of_ne _ _ _ _ (by decide)]

theorem validate_flag_outcome (analysis : Dict) :
    dget (validate_analysis analysis).2.2 (pstr "call_outcome_uncertain")
      = match lowConfFires analysis (pstr "call_outcome_confidence") with
        | some _ => some (.bool true)
        | none => dget analysis (pstr "call_outcome_uncertain") := by
  rcases hf1 : lowConfFires analysis (pstr "call_reason_confidence")
    with _ | q1 <;>
    rcases hf2 : lowConfFires analysis (pstr "call_outcome_confidence")
      with _ | q2 <;>
      simp only [validate_analysis, confidenceFields, List.foldl_cons,
        List.foldl_nil, hf1, hf2] <;>
      rw [dget_dset2_other _ _ _ _ _ _ (by decide) (by decide)] <;>
      first
        | rfl
        | rw [dget_dset_eq_key _ _ _ _ (by decide)]
        | rw [dget_dset_of_ne _ _ _ _ (by decide),
            dget_dset_eq_key _ _ _ _ (by decide)]
        | rw [dget_dset_of_ne _ _ _ _ (by decide)]

/-- C8: the validation layer stores `overall_confidence` as the arithmetic
mean of the two configured confidence fields, each defaulting to the
neutral 50 when missing (part 1, for any record whose confidence fields are
absent or numeric); validity is exactly the absence of
missing-required-field findings, so low confidence alone never invalidates
a record (part 2); and the confidence inputs 30 and 90 yield an overall
confidence of exactly 60 (part 3). -/
theorem c8_overall_confidence_and_validity :
    (∀ (analysis : Dict) (q1 q2 : ℚ),
        (dget analysis (pstr "call_reason_confidence") = none ∧ q1 = 50
          ∨ dget analysis (pstr "call_reason_confidence") = some (.num q1)) →
        (dget analysis (pstr "call_outcome_confidence") = none ∧ q2 = 50
          ∨ dget analysis (pstr "call_outcome_confidence") = some (.num q2)) →
        dget (validate_analysis analysis).2.2 (pstr "overall_confidence")
          = some (.num ((q1 + q2) / 2)))
    ∧ (∀ analysis : Dict,
        ((validate_analysis analysis).1 = true
          ↔ ∀ f ∈ requiredFields, isMissingField analysis f = false))
    ∧ dget (validate_analysis
          [(pstr "call_reason_confidence", .num 30),
           (pstr "call_outcome_confidence", .num 90)]).2.2
        (pstr "overall_confidence") = some (.num 60) := by
  have hmean : ∀ (analysis : Dict) (q1 q2 : ℚ),
      (dget analysis (pstr "call_reason_confidence") = none ∧ q1 = 50
        ∨ dget analysis (pstr "call_reason_confidence") = some (.num q1)) →
      (dget analysis (pstr "call_outcome_confidence") = none ∧ q2 = 50
        ∨ dget analysis (pstr "call_outcome_confidence") = some (.num q2)) →
      dget (validate_analysis analysis).2.2 (pstr "overall_confidence")
        = some (.num ((q1 + q2) / 2)) := by
    intro analysis q1 q2 hq1 hq2
    have hc1 : confOrDefault analysis (pstr "call_reason_confidence") = q1 := by
      rcases hq1 with ⟨h, rfl⟩ | h <;> simp [confOrDefault, h]
    have hc2 : confOrDefault analysis (pstr "call_outcome_confidence") = q2 := by
      rcases hq2 with ⟨h, rfl⟩ | h <;> simp [confOrDefault, h]
    rcases hf1 : lowConfFires analysis (pstr "call_reason_confidence")
      with _ | p1 <;>
      rcases hf2 : lowConfFires analysis (pstr "call_outcome_confidence")
        with _ | p2 <;>
        simp only [validate_analysis, confidenceFields, List.foldl_cons,
          List.foldl_nil, hf1, hf2] <;>
        rw [dget_dset_of_ne _ _ _ _ (by decide), dget_dset_self, hc1, hc2]
  refine ⟨hmean, validate_is_valid_iff, ?_⟩
  have h := hmean
    [(pstr "call_reason_confidence", .num 30),
     (pstr "call_outcome_confidence", .num 90)]
    30 90 (Or.inr rfl) (Or.inr rfl)
  rw [h]
  norm_num

/-- Witness for C8: the record with confidences 30 and 90 has both fields
present and numeric, and its overall confidence is their mean. -/
theorem c8_overall_confidence_and_validity_witness :
    (dget [(pstr "call_reason_confidence", JsonVal.num 30),
           (pstr "call_outcome_confidence", JsonVal.num 90)]
        (pstr "call_reason_confidence") = some (.num 30))
    ∧ dget (validate_analysis
          [(pstr "call_reason_confidence", .num 30),
           (pstr "call_outcome_confidence", .num 90)]).2.2
        (pstr "overall_confidence") = some (.num ((30 + 90) / 2)) :=
  ⟨rfl,
   c8_overall_confidence_and_validity.1
     [(pstr "call_reason_confidence", .num 30),
      (pstr "call_outcome_confidence", .num 90)]
     30 90 (Or.inr rfl) (Or.inr rfl)⟩

/-- C9 (amended): for each configured confidence pair, a present, numeric,
*truthy* (non-zero) confidence below the threshold 50 appends the
low-confidence warning and sets the sibling `<field>_uncertain` flag; in
every other numeric case — at or above the threshold, **or exactly zero,
which Python's truthiness test skips even though it lies below the
threshold** — no warning for that field is appended and the flag is left
unset (given it was absent in the input). The warning list is then exactly
the missing-field warnings plus the other pair's contribution. -/
theorem c9_low_confidence_flags (analysis : Dict) :
    (∀ q : ℚ,
        dget analysis (pstr "call_reason_confidence") = some (.num q) →
        ((q ≠ 0 ∧ q < 50) →
            dget (validate_analysis analysis).2.2 (pstr "call_reason_uncertain")
              = some (.bool true)
          ∧ lowConfMsg q (pstr "call_reason")
              ∈ (validate_analysis analysis).2.1)
        ∧ (¬(q ≠ 0 ∧ q < 50) →
            dget analysis (pstr "call_reason_uncertain") = none →
            dget (validate_analysis analysis).2.2 (pstr "call_reason_uncertain")
              = none
          ∧ (validate_analysis analysis).2.1
            = missingWarnings analysis
              ++ ((lowConfFires analysis (pstr "call_outcome_confidence")).map
                  (fun p => lowConfMsg p (pstr "call_outcome"))).toList))
    ∧ (∀ q : ℚ,
        dget analysis (pstr "call_outcome_confidence") = some (.num q) →
        ((q ≠ 0 ∧ q < 50) →
            dget (validate_analysis analysis).2.2 (pstr "call_outcome_uncertain")
              = some (.bool true)
          ∧ lowConfMsg q (pstr "call_outcome")
              ∈ (validate_analysis analysis).2.1)
        ∧ (¬(q ≠ 0 ∧ q < 50) →
            dget analysis (pstr "call_outcome_uncertain") = none →
            dget (validate_analysis analysis).2.2 (pstr "call_outcome_uncertain")
              = none
          ∧ (validate_analysis analysis).2.1
            = missingWarnings analysis
              ++ ((lowConfFires analysis (pstr "call_reason_confidence")).map
                  (fun p => lowConfMsg p (pstr "call_reason"))).toList)) := by
  constructor
  · intro q hq
    constructor
    · intro hcond
      have hf1 : lowConfFires analysis (pstr "call_reason_confidence")
          = some q := by
        simp [lowConfFires, hq, LOW_CONFIDENCE_THRESHOLD, hcond.1, hcond.2]
      constructor
      · rw [validate_flag_reason, hf1]
      · rw [validate_warnings_split]
        refine List.mem_append.mpr (Or.inr ?_)
        rcases hf2 : lowConfFires analysis (pstr "call_outcome_confidence")
          with _ | p2 <;>
          simp [lowConfWarnings, confidenceFields, hf1, hf2]
    · intro hcond hflag
      have hf1 : lowConfFires analysis (pstr "call_reason_confidence")
          = none := by
        simp only [lowConfFires, hq, LOW_CONFIDENCE_THRESHOLD]
        rw [if_neg hcond]
      constructor
      · rw [validate_flag_reason, hf1]
        exact hflag
      · rw [validate_warnings_split]
        refine congrArg _ ?_
        rcases hf2 : lowConfFires analysis (pstr "call_outcome_confidence")
          with _ | p2 <;>
          simp [lowConfWarnings, confidenceFields, hf1, hf2]
  · intro q hq
    constructor
    · intro hcond
      have hf2 : lowConfFires analysis (pstr "call_outcome_confidence")
          = some q := by
        simp [lowConfFires, hq, LOW_CONFIDENCE_THRESHOLD, hcond.1, hcond.2]
      constructor
      · rw [validate_flag_outcome, hf2]
      · rw [validate_warnings_split]
        refine List.mem_append.mpr (Or.inr ?_)
        rcases hf1 : lowConfFires analysis (pstr "call_reason_confidence")
          with _ | p1 <;>
          simp [lowConfWarnings, confidenceFields, hf1, hf2]
    · intro hcond hflag
      have hf2 : lowConfFires analysis (pstr "call_outcome_confidence")
          = none := by
        simp only [lowConfFires, hq, LOW_CONFIDENCE_THRESHOLD]
        rw [if_neg hcond]
      constructor
      · rw [validate_flag_outcome, hf2]
        exact hflag
      · rw [validate_warnings_split]
        refine congrArg _ ?_
        rcases hf1 : lowConfFires analysis (pstr "call_reason_confidence")
          with _ | p1 <;>
          simp [lowConfWarnings, confidenceFields, hf1, hf2]

/-- Counterexample to C9 as stated: a present confidence of exactly 0 is
below the threshold 50, yet `conf_value and conf_value < 50` is false for
the falsy 0, so no warning is appended and no uncertain flag is set — the
enhanced record has no `call_reason_uncertain` key and the warnings are
exactly the three missing-field findings. -/
theorem c9_low_confidence_flags_counterexample :
    dget (validate_analysis
        [(pstr "call_reason_confidence", JsonVal.num 0)]).2.2
      (pstr "call_reason_uncertain") = none
    ∧ (validate_analysis [(pstr "call_reason_confidence", JsonVal.num 0)]).2.1
      = [missingMsg (pstr "performance_score"), missingMsg (pstr "call_reason"),
         missingMsg (pstr "call_outcome")] :=
  ⟨rfl, rfl⟩

/-- Witness for the amended C9: confidences `{call_reason: 30,
call_outcome: 90}` set `call_reason_uncertain` and leave
`call_outcome_uncertain` absent. -/
theorem c9_low_confidence_flags_witness :
    (dget [(pstr "call_reason_confidence", JsonVal.num 30),
           (pstr "call_outcome_confidence", JsonVal.num 90)]
        (pstr "call_reason_confidence") = some (.num 30))
    ∧ dget (validate_analysis
          [(pstr "call_reason_confidence", .num 30),
           (pstr "call_outcome_confidence", .num 90)]).2.2
        (pstr "call_reason_uncertain") = some (.bool true)
    ∧ dget (validate_analysis
          [(pstr "call_reason_confidence", .num 30),
           (pstr "call_outcome_confidence", .num 90)]).2.2
        (pstr "call_outcome_uncertain") = none :=
  ⟨rfl,
   (((c9_low_confidence_flags
       [(pstr "call_reason_confidence", .num 30),
        (pstr "call_outcome_confidence", .num 90)]).1
     30 rfl).1 (by norm_num)).1,
   ((((c9_low_confidence_flags
       [(pstr "call_reason_confidence", .num 30),
        (pstr "call_outcome_confidence", .num 90)]).2
     90 rfl).2 (by norm_num)) rfl).1⟩
